import Mathlib

/-!
Verification of the Expo push-notification client library
(`exponent-server-sdk-golang`) against its natural-language specification.

The repository contains a few near-duplicate historical variants of the same
client design:

* the multi-recipient variant (`publishInternal` with an `expectedReceipts`
  counter and a per-recipient reconciliation loop) — embedded at top level;
* a variant with 401/403 authentication classification in `checkStatus`,
  a URL override and per-message receipts — embedded in namespace
  `AuthClient`;
* the single-token-per-message variant (`sdk/push_client.go`) — embedded in
  namespace `SingleToken`.

Pure Go functions are translated to Lean functions; the HTTP exchange is a
parameter (`TransportResult`): the transport either fails at the network
level or yields a status code, a status text and a body.  A body is
`Option Response`: `none` models a body that does not decode as the JSON
envelope.  Go `nil` slices/maps are modelled as `Option` `none`, a present
(possibly empty) slice as `some`.
-/

deriving instance DecidableEq for Except

namespace Expo

/-- ExponentPushToken is a valid Expo push token (Go: `type ExponentPushToken string`,
a named string type, modelled as a transparent alias). -/
abbrev ExponentPushToken := String

/-- ErrMalformedToken is returned if a token does not start with the required text
(Go: `errors.New("Token should start with ExponentPushToken")`). -/
def ErrMalformedToken : String := "Token should start with ExponentPushToken"

/-- NewExponentPushToken returns a token, or an error if the input token is invalid.
Go: `if !strings.HasPrefix(token, "ExponentPushToken") { return "", ErrMalformedToken }`.
`strings.HasPrefix` is modelled as a character-list check. -/
def NewExponentPushToken (token : String) : Except String ExponentPushToken :=
  if !("ExponentPushToken".data.isPrefixOf token.data) then
    .error ErrMalformedToken
  else
    .ok token

/-- PushMessage describes a push notification request, with the full field set of
the Go struct.  In the multi-recipient snapshot `To` is a slice of tokens
(`publishInternal` iterates `for _, recipient := range message.To` and narrows it
to `[]ExponentPushToken{to}`).  Go's `nil` data map is `none`. -/
structure PushMessage where
  To : List ExponentPushToken
  Body : String
  Data : Option (List (String × String))
  Sound : String
  Title : String
  TTLSeconds : Int
  Expiration : Int
  Priority : String
  Badge : Int
  ChannelID : String
deriving DecidableEq

/-- PushResponse is a wrapper for a push notification response: a back-referenced
message plus the gateway's `status`, `message` and `details` fields.  A `nil`
details map is `none`. -/
structure PushResponse where
  PushMessage : PushMessage
  Status : String
  Message : String
  Details : Option (List (String × String))
deriving DecidableEq

/-- Response is the decoded HTTP envelope from an Expo publish request:
`data` (per-recipient receipts) and `errors` (request-level errors), each a Go
slice that may be `nil` (`none`) or present (`some`, possibly empty). -/
structure Response where
  data : Option (List PushResponse)
  errors : Option (List (List (String × String)))
deriving DecidableEq

/-- PublishError enumerates the error values `publishInternal` and `checkStatus`
can return, one constructor per `return nil, err` site, carrying the data Go
puts into the error value:

* `noRecipients` — `errors.New("No recipients")`;
* `invalidPushToken` — `errors.New("Invalid push token")`;
* `transportError` — the error of `httpClient.Do`/`Post` propagated unchanged;
* `invalidResponseStatus` — `fmt.Errorf("Invalid response (%d %s)", ...)` from
  the generic `checkStatus`;
* `invalidAccessToken` — `fmt.Errorf("invalid access token %s", resp.StatusCode)`
  from the 401/403 branch of the `AuthClient` variant's `checkStatus`;
* `invalidResponse` — `fmt.Errorf("invalid response %s", resp.Status)`;
* `decodeError` — the JSON decoder's error when the body is not the envelope;
* `serverError message errors` — `NewPushServerError(message, resp, r, errors)`.
-/
inductive PublishError where
  | noRecipients
  | invalidPushToken
  | transportError
  | invalidResponseStatus (statusCode : Nat) (status : String)
  | invalidAccessToken (statusCode : Nat)
  | invalidResponse (status : String)
  | decodeError
  | serverError (message : String) (errors : Option (List (List (String × String))))
deriving DecidableEq

/-- TransportResult abstracts the outcome of the HTTP exchange: a network-level
failure, or a response with its status code, status text and decoded body
(`none` = the body does not parse as the JSON envelope). -/
inductive TransportResult where
  | fail
  | ok (statusCode : Nat) (status : String) (body : Option Response)
deriving DecidableEq

/-- The validation loop of the multi-recipient `publishInternal` (lines 92-103):
walks messages in order; a message with no recipients yields "No recipients",
an empty recipient token yields "Invalid push token"; on success returns the
accumulated `expectedReceipts` (sum of recipient counts). -/
def countRecipients : List PushMessage → Except PublishError Nat
  | [] => .ok 0
  | message :: rest =>
    if message.To.length = 0 then .error .noRecipients
    else if message.To.contains "" then .error .invalidPushToken
    else
      match countRecipients rest with
      | .error e => .error e
      | .ok n => .ok (message.To.length + n)

/-- The generic `checkStatus` of the multi-recipient variant (lines 167-172):
2xx passes, anything else is `fmt.Errorf("Invalid response (%d %s)", ...)`. -/
def checkStatus (statusCode : Nat) (status : String) : Option PublishError :=
  if 200 ≤ statusCode ∧ statusCode ≤ 299 then none
  else some (.invalidResponseStatus statusCode status)

/-- The mismatched-receipt-count message,
`fmt.Sprintf("Mismatched response length. Expected %d receipts but only received %d", a, b)`. -/
def mismatchMessage (a b : Nat) : String :=
  "Mismatched response length. Expected " ++ toString a ++
    " receipts but only received " ++ toString b

/-- LoopState carries the two arrays the reconciliation loop can read or write:
the caller's `messages` slice and the response's `r.Data` slice. -/
structure LoopState where
  messages : List PushMessage
  data : List PushResponse
deriving DecidableEq

/-- Write at index `i` of a receipt list, `data[i] = f data[i]`; out-of-range
leaves the list unchanged (Go would panic there; the call sites run under the
receipt-count guard, which keeps every write in range). -/
def modifyAt (data : List PushResponse) (i : Nat) (f : PushResponse → PushResponse) :
    List PushResponse :=
  match data[i]? with
  | none => data
  | some d => data.set i (f d)

/-- One iteration of the reconciliation loop body (lines 159-160), as the two
assignments Go performs, each an explicit write into the `data` component:
`r.Data[i].PushMessage = msg` then `r.Data[i].PushMessage.To = []ExponentPushToken{to}`.
Go struct assignment copies `msg`; neither statement writes into `messages`. -/
def loopBody (st : LoopState) (i : Nat) (msg : PushMessage) (tok : ExponentPushToken) :
    LoopState :=
  let st1 : LoopState :=
    { st with data := modifyAt st.data i (fun d => { d with PushMessage := msg }) }
  { st1 with
    data := modifyAt st1.data i
      (fun d => { d with PushMessage := { d.PushMessage with To := [tok] } }) }

/-- The flattening order of the loop header (`for _, msg := range messages`,
`for _, to := range msg.To`): messages in submission order, recipients in given
order, paired with their owning message. -/
def flattenPairs (messages : List PushMessage) : List (PushMessage × ExponentPushToken) :=
  messages.flatMap (fun msg => msg.To.map (fun tok => (msg, tok)))

/-- Runs the loop body over the flattened (message, recipient) pairs with the
running index `i` (Go: `i := 0; ...; i += 1`). -/
def attachLoopAux (st : LoopState) (i : Nat) :
    List (PushMessage × ExponentPushToken) → LoopState
  | [] => st
  | (msg, tok) :: rest => attachLoopAux (loopBody st i msg tok) (i + 1) rest

/-- The whole reconciliation loop of lines 156-163. -/
def attachLoop (st : LoopState) : LoopState :=
  attachLoopAux st 0 (flattenPairs st.messages)

/-- The single-recipient reconstruction a loop iteration stores into receipt
`i`: the owning message with its recipient list narrowed to the one token,
attached to the receipt. -/
def narrowTo (p : PushMessage × ExponentPushToken) (d : PushResponse) : PushResponse :=
  { d with PushMessage := { p.1 with To := [p.2] } }

/-- A batch satisfies request validation: every message has at least one
recipient and no recipient token is the empty string. -/
def ValidBatch (messages : List PushMessage) : Prop :=
  ∀ m ∈ messages, m.To ≠ [] ∧ ∀ tok ∈ m.To, tok ≠ ""

instance (messages : List PushMessage) : Decidable (ValidBatch messages) := by
  unfold ValidBatch
  infer_instance

/-- The expected-receipt-count of a batch: the sum of per-message recipient
counts. -/
def totalRecipients (messages : List PushMessage) : Nat :=
  (messages.map (fun m => m.To.length)).sum

/-- The multi-recipient `publishInternal` (part_001 lines 87-165), with the HTTP
exchange abstracted to a `TransportResult` parameter.  The steps appear in
program order: validation (before any network access), transport, status
check, body decoding, request-level `errors` check, `data` presence check,
receipt-count sanity check, reconciliation loop.  Note the mismatch error is
formatted with `len(messages)`, while the guard compares `expectedReceipts`. -/
def publishInternal (messages : List PushMessage) (t : TransportResult) :
    Except PublishError (List PushResponse) :=
  match countRecipients messages with
  | .error e => .error e
  | .ok expectedReceipts =>
    match t with
    | .fail => .error .transportError
    | .ok statusCode status body =>
      match checkStatus statusCode status with
      | some e => .error e
      | none =>
        match body with
        | none => .error .decodeError
        | some r =>
          match r.errors with
          | some errs => .error (.serverError "Invalid server response" (some errs))
          | none =>
            match r.data with
            | none => .error (.serverError "Invalid server response" none)
            | some data =>
              if expectedReceipts ≠ data.length then
                .error (.serverError (mismatchMessage messages.length data.length) none)
              else
                .ok (attachLoop ⟨messages, data⟩).data

/-- PublishMultiple sends multiple push notifications at once (delegates to
`publishInternal`). -/
def PublishMultiple (messages : List PushMessage) (t : TransportResult) :
    Except PublishError (List PushResponse) :=
  publishInternal messages t

namespace AuthClient

/-- The validation loop of the `AuthClient` variant's `publishInternal`
(part_001 lines 269-278): same per-message checks as the multi-recipient
variant, without the receipt counter. -/
def validateMessages : List PushMessage → Option PublishError
  | [] => none
  | message :: rest =>
    if message.To.length = 0 then some .noRecipients
    else if message.To.contains "" then some .invalidPushToken
    else validateMessages rest

/-- The `AuthClient` variant's `checkStatus` (part_001 lines 342-352): 2xx
passes; 401/403 yield the invalid-access-token error; any other status the
generic invalid-response error. -/
def checkStatus (statusCode : Nat) (status : String) : Option PublishError :=
  if 200 ≤ statusCode ∧ statusCode ≤ 299 then none
  else if statusCode = 401 ∨ statusCode = 403 then some (.invalidAccessToken statusCode)
  else some (.invalidResponse status)

/-- The back-reference loop of the `AuthClient` variant (part_001 lines
336-338): `for i := range r.Data { r.Data[i].PushMessage = messages[i] }`,
one receipt per message.  The `[]`/cons case is unreachable at the call site:
the count guard makes both lists the same length (Go would panic there). -/
def attachPerMessage : List PushMessage → List PushResponse → List PushResponse
  | _, [] => []
  | [], data => data
  | m :: ms, d :: ds => { d with PushMessage := m } :: attachPerMessage ms ds

/-- The `AuthClient` variant's `publishInternal` (part_001 lines 267-340), with
the HTTP exchange abstracted to a `TransportResult`: validation, transport,
status check, body decoding, `errors` check, `data` check, count check
(`len(messages) != len(r.Data)`), per-message back-reference loop. -/
def publishInternal (messages : List PushMessage) (t : TransportResult) :
    Except PublishError (List PushResponse) :=
  match validateMessages messages with
  | some e => .error e
  | none =>
    match t with
    | .fail => .error .transportError
    | .ok statusCode status body =>
      match checkStatus statusCode status with
      | some e => .error e
      | none =>
        match body with
        | none => .error .decodeError
        | some r =>
          match r.errors with
          | some errs => .error (.serverError "Invalid server response" (some errs))
          | none =>
            match r.data with
            | none => .error (.serverError "Invalid server response" none)
            | some data =>
              if messages.length ≠ data.length then
                .error (.serverError (mismatchMessage messages.length data.length) none)
              else
                .ok (attachPerMessage messages data)

end AuthClient

namespace SingleToken

/-- PushMessage of the single-token variant (`sdk/push_client.go` together with
the `To ExponentPushToken` field of part_000 line 55): one recipient token per
message, same remaining field set. -/
structure PushMessage where
  To : ExponentPushToken
  Body : String
  Data : Option (List (String × String))
  Sound : String
  Title : String
  TTLSeconds : Int
  Expiration : Int
  Priority : String
  Badge : Int
  ChannelID : String
deriving DecidableEq

/-- PushResponse of the single-token variant. -/
structure PushResponse where
  PushMessage : PushMessage
  Status : String
  Message : String
  Details : Option (List (String × String))
deriving DecidableEq

/-- Response envelope of the single-token variant. -/
structure Response where
  data : Option (List PushResponse)
  errors : Option (List (List (String × String)))
deriving DecidableEq

/-- Transport outcome for the single-token variant. -/
inductive TransportResult where
  | fail
  | ok (statusCode : Nat) (status : String) (body : Option Response)
deriving DecidableEq

/-- The validation loop of `sdk/push_client.go` lines 80-84: an empty token
string yields "Invalid push token". -/
def validate : List PushMessage → Option PublishError
  | [] => none
  | message :: rest =>
    if message.To = "" then some .invalidPushToken
    else validate rest

/-- The back-reference loop of `sdk/push_client.go` lines 122-124:
`for i := range r.Data { r.Data[i].PushMessage = messages[i] }`.  The
`[]`/cons case is unreachable at the call site (count guard). -/
def attachPerMessage : List PushMessage → List PushResponse → List PushResponse
  | _, [] => []
  | [], data => data
  | m :: ms, d :: ds => { d with PushMessage := m } :: attachPerMessage ms ds

/-- The single-token `publishInternal` (`sdk/push_client.go` lines 78-126):
validation, transport (`httpClient.Post`), status check (the generic
`checkStatus` of lines 128-133, same shape as the top-level one), body
decoding, `errors` check, `data` check, count check, back-reference loop. -/
def publishInternal (messages : List PushMessage) (t : TransportResult) :
    Except PublishError (List PushResponse) :=
  match validate messages with
  | some e => .error e
  | none =>
    match t with
    | .fail => .error .transportError
    | .ok statusCode status body =>
      match checkStatus statusCode status with
      | some e => .error e
      | none =>
        match body with
        | none => .error .decodeError
        | some r =>
          match r.errors with
          | some errs => .error (.serverError "Invalid server response" (some errs))
          | none =>
            match r.data with
            | none => .error (.serverError "Invalid server response" none)
            | some data =>
              if messages.length ≠ data.length then
                .error (.serverError (mismatchMessage messages.length data.length) none)
              else
                .ok (attachPerMessage messages data)

/-- PublishMultiple of the single-token variant. -/
def PublishMultiple (messages : List PushMessage) (t : TransportResult) :
    Except PublishError (List PushResponse) :=
  publishInternal messages t

/-- Publish of the single-token variant (`sdk/push_client.go` lines 62-68):
wraps the one message in a batch and returns `responses[0]`.  The indexing is
modelled with `List.head?`: `Except.ok none` would correspond to the Go
index-out-of-range panic on an empty result. -/
def Publish (message : PushMessage) (t : TransportResult) :
    Except PublishError (Option PushResponse) :=
  match publishInternal [message] t with
  | .error e => .error e
  | .ok responses => .ok responses.head?

end SingleToken

/-! Concrete sample inputs used by the witnesses and counterexamples. -/

/-- A multi-recipient message with the given token list and otherwise zero-value
fields (Go zero values: empty strings, `nil` map, zero numbers). -/
def mkMessage (tokens : List ExponentPushToken) : PushMessage :=
  { To := tokens, Body := "body", Data := none, Sound := "", Title := "",
    TTLSeconds := 0, Expiration := 0, Priority := "", Badge := 0, ChannelID := "" }

/-- A receipt as the JSON decoder produces it: zero-value back-reference (it is
filled in by the reconciliation loop), with a label in `Message` to track
positions. -/
def mkReceipt (label : String) : PushResponse :=
  { PushMessage := mkMessage [], Status := "ok", Message := label, Details := none }

/-- First message of the [2,1] round-trip batch: two recipients. -/
def msgA : PushMessage := mkMessage ["ExponentPushToken[a]", "ExponentPushToken[b]"]

/-- Second message of the [2,1] round-trip batch: one recipient. -/
def msgB : PushMessage := mkMessage ["ExponentPushToken[c]"]

/-- The round-trip batch of 2 messages with recipient counts [2,1]. -/
def batch21 : List PushMessage := [msgA, msgB]

/-- The matching synthetic gateway response of 3 receipts. -/
def receipts3 : List PushResponse := [mkReceipt "r0", mkReceipt "r1", mkReceipt "r2"]

/-- A result is the request-level gateway rejection (the spec's
`GatewayRequestError`): the `PushServerError` raised at the `r.Errors != nil`
site, which is the only site passing a non-nil errors slice into the error. -/
def isGatewayRequestError (res : Except PublishError (List PushResponse)) : Prop :=
  ∃ l, res = .error (.serverError "Invalid server response" (some l))

/-- A single-token message with otherwise zero-value fields. -/
def singleMsg : SingleToken.PushMessage :=
  { To := "ExponentPushToken[x]", Body := "body", Data := none, Sound := "", Title := "",
    TTLSeconds := 0, Expiration := 0, Priority := "", Badge := 0, ChannelID := "" }

/-- The zero-value single-token message, as the JSON decoder leaves the
back-reference field. -/
def singleBlank : SingleToken.PushMessage :=
  { To := "", Body := "", Data := none, Sound := "", Title := "",
    TTLSeconds := 0, Expiration := 0, Priority := "", Badge := 0, ChannelID := "" }

/-- A decoded receipt of the single-token variant (zero-value back-reference). -/
def singleReceipt : SingleToken.PushResponse :=
  { PushMessage := singleBlank, Status := "ok", Message := "r0", Details := none }

example : countRecipients batch21 = .ok 3 := rfl

example :
    publishInternal batch21 (.ok 200 "200 OK" (some ⟨some receipts3, none⟩)) =
      .ok [{ mkReceipt "r0" with PushMessage := { msgA with To := ["ExponentPushToken[a]"] } },
           { mkReceipt "r1" with PushMessage := { msgA with To := ["ExponentPushToken[b]"] } },
           { mkReceipt "r2" with PushMessage := { msgB with To := ["ExponentPushToken[c]"] } }] := by
  decide

example :
    publishInternal batch21
        (.ok 200 "200 OK" (some ⟨some [mkReceipt "r0", mkReceipt "r1"], none⟩)) =
      .error (.serverError
        "Mismatched response length. Expected 2 receipts but only received 2" none) := by
  decide

/-! Supporting lemmas about the reconciliation loop and validation. -/

theorem loopBody_messages (st : LoopState) (i : Nat) (msg : PushMessage)
    (tok : ExponentPushToken) : (loopBody st i msg tok).messages = st.messages := rfl

theorem attachLoopAux_messages (pairs : List (PushMessage × ExponentPushToken)) :
    ∀ (st : LoopState) (i : Nat), (attachLoopAux st i pairs).messages = st.messages := by
  induction pairs with
  | nil => intro st i; rfl
  | cons p rest ih =>
    intro st i
    obtain ⟨msg, tok⟩ := p
    rw [attachLoopAux, ih, loopBody_messages]

theorem modifyAt_append_cons (d1 : List PushResponse) (d : PushResponse)
    (ds : List PushResponse) (f : PushResponse → PushResponse) :
    modifyAt (d1 ++ d :: ds) d1.length f = d1 ++ f d :: ds := by
  have hget : (d1 ++ d :: ds)[d1.length]? = some d := by
    rw [List.getElem?_append_right (Nat.le_refl d1.length)]
    simp
  have hset : (d1 ++ d :: ds).set d1.length (f d) = d1 ++ f d :: ds := by
    rw [List.set_append_right _ _ (Nat.le_refl d1.length)]
    simp
  rw [modifyAt, hget]
  exact hset

theorem loopBody_at_index (d1 : List PushResponse) (d : PushResponse)
    (ds : List PushResponse) (msgs : List PushMessage) (msg : PushMessage)
    (tok : ExponentPushToken) :
    loopBody ⟨msgs, d1 ++ d :: ds⟩ d1.length msg tok =
      ⟨msgs, d1 ++ narrowTo (msg, tok) d :: ds⟩ := by
  rw [loopBody]
  simp only [modifyAt_append_cons]
  rfl

theorem attachLoopAux_data (pairs : List (PushMessage × ExponentPushToken)) :
    ∀ (msgs : List PushMessage) (d1 d2 : List PushResponse), pairs.length = d2.length →
      (attachLoopAux ⟨msgs, d1 ++ d2⟩ d1.length pairs).data =
        d1 ++ List.zipWith narrowTo pairs d2 := by
  induction pairs with
  | nil =>
    intro msgs d1 d2 h
    have h2 : d2 = [] := List.length_eq_zero.mp h.symm
    subst h2
    simp [attachLoopAux]
  | cons p rest ih =>
    intro msgs d1 d2 h
    obtain ⟨msg, tok⟩ := p
    cases d2 with
    | nil => simp at h
    | cons d ds =>
      rw [attachLoopAux, loopBody_at_index]
      have h2 : rest.length = ds.length := by simpa using h
      have hx : d1 ++ narrowTo (msg, tok) d :: ds =
          (d1 ++ [narrowTo (msg, tok) d]) ++ ds := by simp
      have hi : d1.length + 1 = (d1 ++ [narrowTo (msg, tok) d]).length := by simp
      rw [hx, hi, ih msgs _ ds h2]
      simp

theorem attachLoop_data (msgs : List PushMessage) (data : List PushResponse)
    (h : (flattenPairs msgs).length = data.length) :
    (attachLoop ⟨msgs, data⟩).data = List.zipWith narrowTo (flattenPairs msgs) data := by
  have h0 : (([] : List PushResponse) ++ data) = data := rfl
  have := attachLoopAux_data (flattenPairs msgs) msgs [] data h
  rw [h0] at this
  simpa [attachLoop] using this

theorem flattenPairs_length (msgs : List PushMessage) :
    (flattenPairs msgs).length = totalRecipients msgs := by
  induction msgs with
  | nil => rfl
  | cons m ms ih => simp [flattenPairs, totalRecipients] at ih ⊢; omega

theorem contains_empty_iff (l : List ExponentPushToken) :
    l.contains "" = true ↔ ∃ tok ∈ l, tok = "" := by
  rw [List.contains_iff_exists_mem_beq]
  constructor
  · rintro ⟨tok, hm, hbeq⟩
    exact ⟨tok, hm, (beq_iff_eq.mp hbeq).symm⟩
  · rintro ⟨tok, hm, htok⟩
    exact ⟨tok, hm, by simp [htok]⟩

theorem countRecipients_of_valid (msgs : List PushMessage) (h : ValidBatch msgs) :
    countRecipients msgs = .ok (totalRecipients msgs) := by
  induction msgs with
  | nil => rfl
  | cons m ms ih =>
    obtain ⟨h1, h2⟩ := h m (by simp)
    have hrest : ValidBatch ms := fun x hx => h x (by simp [hx])
    have hlen : ¬ m.To.length = 0 := by
      intro hc
      exact h1 (List.length_eq_zero.mp hc)
    have hcont : ¬ m.To.contains "" = true := by
      intro hc
      obtain ⟨tok, hm, htok⟩ := (contains_empty_iff m.To).mp hc
      exact h2 tok hm htok
    rw [countRecipients, if_neg hlen, if_neg hcont, ih hrest]
    simp [totalRecipients]

theorem countRecipients_ok_length (msgs : List PushMessage) :
    ∀ (n : Nat), countRecipients msgs = .ok n → n = totalRecipients msgs := by
  induction msgs with
  | nil =>
    intro n h
    simp only [countRecipients] at h
    cases h
    rfl
  | cons m ms ih =>
    intro n h
    rw [countRecipients] at h
    split at h
    · cases h
    · split at h
      · cases h
      · cases hm : countRecipients ms with
        | error e => rw [hm] at h; cases h
        | ok k =>
          rw [hm] at h
          cases h
          simp [totalRecipients, ih k hm]

theorem countRecipients_of_invalid (msgs : List PushMessage) (h : ¬ ValidBatch msgs) :
    countRecipients msgs = .error .noRecipients ∨
      countRecipients msgs = .error .invalidPushToken := by
  induction msgs with
  | nil => exact absurd (fun m hm => absurd hm (List.not_mem_nil m)) h
  | cons m ms ih =>
    by_cases h1 : m.To.length = 0
    · left
      rw [countRecipients, if_pos h1]
    · by_cases h2 : m.To.contains "" = true
      · right
        rw [countRecipients, if_neg h1, if_pos h2]
      · have hrest : ¬ ValidBatch ms := by
          intro hv
          apply h
          intro x hx
          rcases List.mem_cons.mp hx with hx1 | hx2
          · subst hx1
            refine ⟨fun hc => h1 (by simp [hc]), fun tok htok htokeq => ?_⟩
            exact h2 ((contains_empty_iff x.To).mpr ⟨tok, htok, htokeq⟩)
          · exact hv x hx2
        rcases ih hrest with he | he
        · left
          rw [countRecipients, if_neg h1, if_neg h2, he]
        · right
          rw [countRecipients, if_neg h1, if_neg h2, he]

theorem publishInternal_of_validation_error (msgs : List PushMessage) (e : PublishError)
    (h : countRecipients msgs = .error e) :
    ∀ t, publishInternal msgs t = .error e := by
  intro t
  rw [publishInternal, h]

/-! The claims. -/

/-- C7: `NewExponentPushToken` succeeds, returning the input string as the
token, exactly when the input starts with "ExponentPushToken", and fails with
the malformed-token error otherwise. -/
theorem newExponentPushToken_spec (s : String) :
    (NewExponentPushToken s = .ok s ↔ "ExponentPushToken".data.isPrefixOf s.data = true)
  ∧ ("ExponentPushToken".data.isPrefixOf s.data = false →
      NewExponentPushToken s = .error ErrMalformedToken) := by
  cases hp : "ExponentPushToken".data.isPrefixOf s.data with
  | true =>
    constructor
    · constructor
      · intro _
        rfl
      · intro _
        simp [NewExponentPushToken, hp]
    · intro hc
      simp at hc
  | false =>
    constructor
    · constructor
      · intro h
        simp [NewExponentPushToken, hp] at h
      · intro h
        simp at h
    · intro _
      simp [NewExponentPushToken, hp, ErrMalformedToken]

/-- C7 witness: the two concrete token constructions of the spec. -/
theorem newExponentPushToken_witness :
    NewExponentPushToken "ExponentPushToken[abc]" = .ok "ExponentPushToken[abc]" ∧
    NewExponentPushToken "abc" = .error ErrMalformedToken :=
  ⟨(newExponentPushToken_spec "ExponentPushToken[abc]").1.mpr (by decide),
   (newExponentPushToken_spec "abc").2 (by decide)⟩

/-- C3: request validation succeeds exactly on batches where every message has
at least one recipient and every recipient token is non-empty, and then the
expected-receipt-count is the sum of per-message recipient counts; otherwise
`publishInternal` fails with one of the two validation errors uniformly in the
transport outcome, i.e. before any network call (and before serialization). -/
theorem validation_spec (messages : List PushMessage) :
    (ValidBatch messages ↔ countRecipients messages = .ok (totalRecipients messages))
  ∧ (¬ ValidBatch messages →
      (∀ t, publishInternal messages t = .error .noRecipients) ∨
      (∀ t, publishInternal messages t = .error .invalidPushToken)) := by
  constructor
  · constructor
    · exact countRecipients_of_valid messages
    · intro h
      by_contra hv
      rcases countRecipients_of_invalid messages hv with he | he <;>
        rw [he] at h <;> cases h
  · intro hv
    rcases countRecipients_of_invalid messages hv with he | he
    · exact Or.inl (publishInternal_of_validation_error messages _ he)
    · exact Or.inr (publishInternal_of_validation_error messages _ he)

/-- C3 witness: the [2,1] batch validates with expected-receipt-count 3; a
batch containing a message with no recipients fails before the network call
(here: even when the transport would fail). -/
theorem validation_witness :
    countRecipients batch21 = .ok 3 ∧
    (publishInternal [mkMessage []] TransportResult.fail = .error .noRecipients ∨
     publishInternal [mkMessage []] TransportResult.fail = .error .invalidPushToken) := by
  constructor
  · exact (validation_spec batch21).1.mp (by decide)
  · rcases (validation_spec [mkMessage []]).2 (by decide) with h | h
    · exact Or.inl (h TransportResult.fail)
    · exact Or.inr (h TransportResult.fail)

/-- C8: the empty batch passes validation vacuously with expected-receipt-count
0, and the call proceeds to the network rather than short-circuiting: a
transport failure is reported (so the request was issued), and a 2xx response
with an empty `data` array yields a successful empty result. -/
theorem empty_batch_spec :
    countRecipients ([] : List PushMessage) = .ok 0 ∧
    publishInternal [] TransportResult.fail = .error .transportError ∧
    publishInternal [] (.ok 200 "200 OK" (some ⟨some [], none⟩)) = .ok [] :=
  ⟨rfl, rfl, by decide⟩

/-- C10: the reconciliation loop — the only statements of `publishInternal`
that write through a data structure, modelled as explicit indexed writes —
only ever writes the receipt array: the caller's `messages` component is
unchanged by the whole loop (and every error path returns before the loop). -/
theorem publish_no_mutation (st : LoopState) : (attachLoop st).messages = st.messages := by
  rw [attachLoop, attachLoopAux_messages]

/-- C1: on the success path — validated batch, 2xx status, envelope whose
`data` carries exactly the expected number of receipts — `PublishMultiple`
returns the receipts in positional order, attaching to receipt `i` the message
that owns the `i`-th recipient in flattening order (messages in submission
order, recipients in given order within a message), with its recipient list
narrowed to exactly that token. -/
theorem reconciliation_spec (messages : List PushMessage) (data : List PushResponse)
    (code : Nat) (status : String)
    (hval : countRecipients messages = .ok data.length)
    (hcode : 200 ≤ code ∧ code ≤ 299) :
    PublishMultiple messages (.ok code status (some ⟨some data, none⟩)) =
      .ok (List.zipWith narrowTo (flattenPairs messages) data)
  ∧ (List.zipWith narrowTo (flattenPairs messages) data).length = data.length
  ∧ ∀ (i : Nat) (p : PushMessage × ExponentPushToken) (d : PushResponse),
      (flattenPairs messages)[i]? = some p → data[i]? = some d →
      (List.zipWith narrowTo (flattenPairs messages) data)[i]? = some (narrowTo p d) := by
  have hcs : checkStatus code status = none := by rw [checkStatus, if_pos hcode]
  have hlen : (flattenPairs messages).length = data.length := by
    rw [flattenPairs_length]
    exact (countRecipients_ok_length messages data.length hval).symm
  refine ⟨?_, ?_, ?_⟩
  · simp only [PublishMultiple, publishInternal, hval, hcs]
    rw [if_neg (by omega : ¬ data.length ≠ data.length)]
    rw [attachLoop_data messages data hlen]
  · rw [List.length_zipWith, hlen, Nat.min_self]
  · intro i p d hp hd
    rw [List.getElem?_zipWith, hp, hd]

/-- C1 witness: the [2,1] round-trip — receipts 0 and 1 back-reference message
0's two single-recipient reconstructions, receipt 2 back-references message
1's single recipient, in positional order. -/
theorem reconciliation_witness :
    PublishMultiple batch21 (.ok 200 "200 OK" (some ⟨some receipts3, none⟩)) =
      .ok (List.zipWith narrowTo (flattenPairs batch21) receipts3) ∧
    List.zipWith narrowTo (flattenPairs batch21) receipts3 =
      [{ mkReceipt "r0" with PushMessage := { msgA with To := ["ExponentPushToken[a]"] } },
       { mkReceipt "r1" with PushMessage := { msgA with To := ["ExponentPushToken[b]"] } },
       { mkReceipt "r2" with PushMessage := { msgB with To := ["ExponentPushToken[c]"] } }] :=
  ⟨(reconciliation_spec batch21 receipts3 200 "200 OK" (by decide) (by decide)).1,
   by decide⟩

/-- C4 counterexample: an envelope decoded from `{"errors":[],"data":[...]}`
has a present but empty error list (`some []`, the Go non-nil empty slice);
the code still fails with the request-level rejection, refuting
"GatewayRequestError if and only if the error list is non-empty". -/
theorem gatewayRequestError_counterexample :
    isGatewayRequestError
        (PublishMultiple [msgA] (.ok 200 "200 OK"
          (some ⟨some [mkReceipt "r0", mkReceipt "r1"], some []⟩))) ∧
    ¬ ∃ l, (⟨some [mkReceipt "r0", mkReceipt "r1"], some []⟩ : Response).errors = some l ∧
        l ≠ [] := by
  constructor
  · exact ⟨[], by decide⟩
  · rintro ⟨l, hl, hne⟩
    simp only [] at hl
    cases hl
    exact hne rfl

/-- C4 amended: the request-level rejection (`GatewayRequestError`) fires if
and only if the envelope's `errors` field is present (Go `r.Errors != nil`) —
even when that list is empty — carrying the raw entries; it takes precedence
over any `data` field, and when `errors` is absent no outcome of the call has
the request-level-rejection shape. -/
theorem gatewayRequestError_iff_present (messages : List PushMessage) (n code : Nat)
    (status : String) (env : Response)
    (hval : countRecipients messages = .ok n) (hcode : 200 ≤ code ∧ code ≤ 299) :
    (∀ l, env.errors = some l →
        PublishMultiple messages (.ok code status (some env)) =
          .error (.serverError "Invalid server response" (some l)))
  ∧ (env.errors = none →
        ¬ isGatewayRequestError (PublishMultiple messages (.ok code status (some env)))) := by
  have hcs : checkStatus code status = none := by rw [checkStatus, if_pos hcode]
  constructor
  · intro l hl
    simp only [PublishMultiple, publishInternal, hval, hcs, hl]
  · intro henv
    rintro ⟨l, hl⟩
    simp only [PublishMultiple, publishInternal, hval, hcs, henv] at hl
    cases hd : env.data with
    | none =>
      rw [hd] at hl
      simp at hl
    | some data =>
      rw [hd] at hl
      split at hl
      all_goals try split at hl
      all_goals simp at hl

/-- C4 amended witness: a request-level error entry is carried through even
though `data` is absent, and a success-framed envelope without `errors` is not
a request-level rejection. -/
theorem gatewayRequestError_witness :
    PublishMultiple batch21 (.ok 200 "200 OK"
        (some ⟨none, some [[("code", "API_ERROR")]]⟩)) =
      .error (.serverError "Invalid server response" (some [[("code", "API_ERROR")]])) ∧
    ¬ isGatewayRequestError
        (PublishMultiple batch21 (.ok 200 "200 OK" (some ⟨some receipts3, none⟩))) :=
  ⟨(gatewayRequestError_iff_present batch21 3 200 "200 OK"
      ⟨none, some [[("code", "API_ERROR")]]⟩ (by decide) (by decide)).1
      [[("code", "API_ERROR")]] rfl,
   (gatewayRequestError_iff_present batch21 3 200 "200 OK"
      ⟨some receipts3, none⟩ (by decide) (by decide)).2 rfl⟩

/-- C5: an envelope with neither `data` nor `errors` populated fails with the
malformed-response error (the `PushServerError` carrying no entries), for
every validated batch and 2xx status — after the errors check (an envelope
with `errors` present is caught by that earlier check) and before any
receipt-count comparison (none occurs without `data`). -/
theorem missing_data_malformed (messages : List PushMessage) (n code : Nat)
    (status : String)
    (hval : countRecipients messages = .ok n) (hcode : 200 ≤ code ∧ code ≤ 299) :
    PublishMultiple messages (.ok code status (some ⟨none, none⟩)) =
      .error (.serverError "Invalid server response" none)
  ∧ ∀ errs, PublishMultiple messages (.ok code status (some ⟨none, some errs⟩)) =
      .error (.serverError "Invalid server response" (some errs)) := by
  have hcs : checkStatus code status = none := by rw [checkStatus, if_pos hcode]
  constructor
  · simp only [PublishMultiple, publishInternal, hval, hcs]
  · intro errs
    simp only [PublishMultiple, publishInternal, hval, hcs]

/-- C5 witness: the [2,1] batch against the empty envelope. -/
theorem missing_data_witness :
    PublishMultiple batch21 (.ok 200 "200 OK" (some ⟨none, none⟩)) =
      .error (.serverError "Invalid server response" none) :=
  (missing_data_malformed batch21 3 200 "200 OK" (by decide) (by decide)).1

/-- C6: the `AuthClient` variant's status checking passes exactly for statuses
200-299; 401 and 403 yield the authentication-failure error and any other
non-2xx status the generic variant, in both cases for every body (the body is
never parsed); a 2xx status whose body does not decode yields the
malformed-response error, not a transport error. -/
theorem checkStatus_classification (code : Nat) (status : String)
    (messages : List PushMessage) (body : Option Response)
    (hval : AuthClient.validateMessages messages = none) :
    (AuthClient.checkStatus code status = none ↔ 200 ≤ code ∧ code ≤ 299)
  ∧ (¬ (200 ≤ code ∧ code ≤ 299) → code = 401 ∨ code = 403 →
      AuthClient.publishInternal messages (.ok code status body) =
        .error (.invalidAccessToken code))
  ∧ (¬ (200 ≤ code ∧ code ≤ 299) → ¬ (code = 401 ∨ code = 403) →
      AuthClient.publishInternal messages (.ok code status body) =
        .error (.invalidResponse status))
  ∧ (200 ≤ code ∧ code ≤ 299 →
      AuthClient.publishInternal messages (.ok code status none) =
        .error .decodeError) := by
  refine ⟨⟨fun h => ?_, fun h => by rw [AuthClient.checkStatus, if_pos h]⟩, ?_, ?_, ?_⟩
  · by_contra hc
    rw [AuthClient.checkStatus, if_neg hc] at h
    split at h <;> simp at h
  · intro h1 h2
    have hcs : AuthClient.checkStatus code status = some (.invalidAccessToken code) := by
      rw [AuthClient.checkStatus, if_neg h1, if_pos h2]
    simp only [AuthClient.publishInternal, hval, hcs]
  · intro h1 h2
    have hcs : AuthClient.checkStatus code status = some (.invalidResponse status) := by
      rw [AuthClient.checkStatus, if_neg h1, if_neg h2]
    simp only [AuthClient.publishInternal, hval, hcs]
  · intro h
    have hcs : AuthClient.checkStatus code status = none := by
      rw [AuthClient.checkStatus, if_pos h]
    simp only [AuthClient.publishInternal, hval, hcs]

/-- C6 witness: 401 and 403 classify as authentication failures, 500 as the
generic variant, and 200 with an unparsable body as the malformed-response
error. -/
theorem checkStatus_witness :
    AuthClient.publishInternal [msgA]
        (.ok 401 "401 Unauthorized" (some ⟨some receipts3, none⟩)) =
      .error (.invalidAccessToken 401) ∧
    AuthClient.publishInternal [msgA] (.ok 403 "403 Forbidden" none) =
      .error (.invalidAccessToken 403) ∧
    AuthClient.publishInternal [msgA] (.ok 500 "500 Internal Server Error" none) =
      .error (.invalidResponse "500 Internal Server Error") ∧
    AuthClient.publishInternal [msgA] (.ok 200 "200 OK" none) = .error .decodeError :=
  ⟨(checkStatus_classification 401 "401 Unauthorized" [msgA]
      (some ⟨some receipts3, none⟩) (by decide)).2.1 (by omega) (Or.inl rfl),
   (checkStatus_classification 403 "403 Forbidden" [msgA] none
      (by decide)).2.1 (by omega) (Or.inr rfl),
   (checkStatus_classification 500 "500 Internal Server Error" [msgA] none
      (by decide)).2.2.1 (by omega) (by omega),
   (checkStatus_classification 200 "200 OK" [msgA] none
      (by decide)).2.2.2 (by omega)⟩

theorem SingleToken.attachPerMessage_length (ms : List SingleToken.PushMessage) :
    ∀ ds : List SingleToken.PushResponse, ms.length = ds.length →
      (SingleToken.attachPerMessage ms ds).length = ds.length := by
  induction ms with
  | nil =>
    intro ds h
    cases ds with
    | nil => rfl
    | cons d ds2 => simp at h
  | cons m ms2 ih =>
    intro ds h
    cases ds with
    | nil => simp at h
    | cons d ds2 =>
      simp only [SingleToken.attachPerMessage, List.length_cons]
      rw [ih ds2 (by simpa using h)]

theorem SingleToken.publishInternal_ok_length
    (messages : List SingleToken.PushMessage) (t : SingleToken.TransportResult)
    (rs : List SingleToken.PushResponse)
    (h : SingleToken.publishInternal messages t = .ok rs) :
    rs.length = messages.length := by
  cases hv : SingleToken.validate messages with
  | some e => simp [SingleToken.publishInternal, hv] at h
  | none =>
    cases t with
    | fail => simp [SingleToken.publishInternal, hv] at h
    | ok code status body =>
      cases hcs : checkStatus code status with
      | some e => simp [SingleToken.publishInternal, hv, hcs] at h
      | none =>
        cases body with
        | none => simp [SingleToken.publishInternal, hv, hcs] at h
        | some r =>
          obtain ⟨dataOpt, errOpt⟩ := r
          cases errOpt with
          | some errs => simp [SingleToken.publishInternal, hv, hcs] at h
          | none =>
            cases dataOpt with
            | none => simp [SingleToken.publishInternal, hv, hcs] at h
            | some data =>
              by_cases hg : messages.length = data.length
              · simp only [SingleToken.publishInternal, hv, hcs, hg, ne_eq,
                  not_true_eq_false, if_false, ite_self] at h
                cases h
                rw [SingleToken.attachPerMessage_length messages data hg, hg]
              · simp [SingleToken.publishInternal, hv, hcs, hg] at h

/-- C9: in the single-token client variant, `Publish` of one message returns
the first element of `PublishMultiple`'s result, and the index is in bounds:
whenever `PublishMultiple` succeeds, the receipt-count guard forces exactly
one receipt per submitted message, hence exactly one for the one-message
batch `Publish` constructs. -/
theorem publish_single_first (m : SingleToken.PushMessage)
    (t : SingleToken.TransportResult) (rs : List SingleToken.PushResponse)
    (h : SingleToken.PublishMultiple [m] t = .ok rs) :
    ∃ r, rs = [r] ∧ SingleToken.Publish m t = .ok (some r) := by
  rw [SingleToken.PublishMultiple] at h
  have hlen : rs.length = 1 := by
    have h2 := SingleToken.publishInternal_ok_length [m] t rs h
    simpa using h2
  obtain ⟨r, hr⟩ : ∃ r, rs = [r] := by
    cases rs with
    | nil => simp at hlen
    | cons a as =>
      cases as with
      | nil => exact ⟨a, rfl⟩
      | cons b bs => simp at hlen
  refine ⟨r, hr, ?_⟩
  rw [SingleToken.Publish, h, hr]
  rfl

/-- C9 witness: a concrete one-message success returns exactly the first
(only) receipt, back-referenced to the submitted message. -/
theorem publish_single_witness :
    SingleToken.Publish singleMsg
        (.ok 200 "200 OK" (some ⟨some [singleReceipt], none⟩)) =
      .ok (some { singleReceipt with PushMessage := singleMsg }) := by
  obtain ⟨r, hr, hp⟩ := publish_single_first singleMsg
    (.ok 200 "200 OK" (some ⟨some [singleReceipt], none⟩))
    [{ singleReceipt with PushMessage := singleMsg }] (by decide)
  cases hr
  exact hp

/-- C2 (code bug): for the [2,1] batch (expected-receipt-count 3) and a 2xx
response of 2 receipts, the sanity check fires (3 ≠ 2), but the error message
is formatted with `len(messages)` = 2 rather than `expectedReceipts` = 3: it
reads "Expected 2 receipts but only received 2" instead of the spec's
expected=3, received=2. -/
theorem mismatch_reports_message_count :
    countRecipients batch21 = .ok 3 ∧
    publishInternal batch21
        (.ok 200 "200 OK" (some ⟨some [mkReceipt "r0", mkReceipt "r1"], none⟩)) =
      .error (.serverError (mismatchMessage batch21.length 2) none) ∧
    mismatchMessage batch21.length 2 =
      "Mismatched response length. Expected 2 receipts but only received 2" :=
  ⟨by decide, by decide, by decide⟩

end Expo
